import Mathlib

/-!
Shallow embedding of `src/trainerroad/api.py` (class `TrainerRoad`).

The Python client wraps a `requests.Session`.  We embed it as pure
functions parameterised over the HTTP responses the network would
deliver: each operation takes the client state and the statuses/pages of
the requests it performs, and returns the list of HTTP requests it
issued, the updated client state, and either a value or an error.

The Python code raises `RuntimeError`/`ValueError`/`KeyError` at
distinct program points; the spec names those points with an error
taxonomy (`AuthenticationError`, `NotConnectedError`, `RequestError`,
`ParseError`, `ValidationError`, `VerificationError`).  We use one
constructor per raise site, named after the taxonomy.  `attributeError`
models the untyped `AttributeError` Python raises when a method is
invoked on `None` (e.g. `self._session.get` with `self._session is
None`).
-/

namespace TrainerRoad

/-- Errors, one constructor per raise site of the source. -/
inductive TRError where
  | authenticationError (status : Nat)
  | notConnectedError
  | requestError (status : Nat)
  | parseError (name : String)
  | validationError (key : String)
  | verificationError
  | keyError (key : String)
  | attributeError
  deriving DecidableEq, Repr

/-- Python values passed to `write_profile`; `pyStr` embeds `str()`. -/
inductive PyValue where
  | s (v : String)
  | i (v : Int)
  deriving DecidableEq, Repr

def pyStr : PyValue → String
  | .s v => v
  | .i v => toString v

/-- An HTTP request issued by the client (the observable network write/read). -/
inductive HttpReq where
  | get (url : String)
  | post (url : String) (data : List (String × String))
  deriving DecidableEq, Repr

/-- Client state: `__init__` stores the credentials and `self._session = None`. -/
structure Client where
  username : String
  password : String
  session : Option Unit
  deriving DecidableEq, Repr

/-- Constructor `TrainerRoad(username, password)`: fresh client, no session. -/
def init (username password : String) : Client :=
  { username := username, password := password, session := none }

/-- Result of running one client operation: the HTTP requests it issued
(in order, up to the point it returned or raised), the client state
afterwards, and the returned value or raised error. -/
structure TrResult (α : Type) where
  trace : List HttpReq
  client : Client
  result : Except TRError α

/-- An HTML page, as far as the xpath queries of the source see it:
`inputs` holds `(name, value)` for each `//form//input[@name=...]/@value`
hit, `selects` holds `(name, value)` for each
`//form//select[@name=...]//option[@selected="selected"]/@value` hit;
the source takes the first hit (`rtn[0]`). -/
structure Page where
  inputs : List (String × String)
  selects : List (String × String)
  deriving DecidableEq, Repr

/-- An HTTP response: status code and (for GETs of the profile page) the page. -/
structure Response where
  status : Nat
  page : Page
  deriving DecidableEq, Repr

-- Class constants of `TrainerRoad`.

def ftpField : String := "Ftp"

def weightField : String := "Weight"

def inputDataNames : List String := [ftpField, weightField, "Marketing"]

/-- Note the source lists `TimeZoneId` twice. -/
def selectDataNames : List String :=
  ["TimeZoneId", "IsMale", "IsPrivate", "Units", "IsVirtualPowerEnabled", "TimeZoneId"]

def loginUrl : String := "https://www.trainerroad.com/login"

def logoutUrl : String := "https://www.trainerroad.com/logout"

def riderUrl : String := "https://www.trainerroad.com/profile/rider-information"

def rvt : String := "__RequestVerificationToken"

/-- First-match lookup in an association list (xpath `rtn[0]`, and
membership/indexing for a Python dict kept duplicate-free). -/
def dget (d : List (String × String)) (k : String) : Option String :=
  match d with
  | [] => none
  | (k2, v) :: rest => if k2 = k then some v else dget rest k

/-- Python `dict` assignment `d[k] = v`: overwrite in place when the key
exists (keeping its position), else append. -/
def dictInsert (d : List (String × String)) (k v : String) : List (String × String) :=
  match d with
  | [] => [(k, v)]
  | (k2, v2) :: rest =>
      if k2 = k then (k2, v) :: rest else (k2, v2) :: dictInsert rest k v

/-- Source `_parse_value(tree, name)`: first `input[@name=name]/@value`, else raise. -/
def parseValue (tree : Page) (name : String) : Except TRError String :=
  match dget tree.inputs name with
  | none => .error (.parseError name)
  | some v => .ok v

/-- Source `_parse_name(tree, name)`: value of the selected option of
`select[@name=name]`, else raise. -/
def parseName (tree : Page) (name : String) : Except TRError String :=
  match dget tree.selects name with
  | none => .error (.parseError name)
  | some v => .ok v

/-- Source `connect()`: assigns a fresh session, then POSTs the credentials to
the login URL; raises unless the status is 200 or 302.  The session
assignment happens before the status check. -/
def connect (c : Client) (loginStatus : Nat) : TrResult Unit :=
  let c2 : Client := { c with session := some () }
  { trace := [.post loginUrl [("Username", c.username), ("Password", c.password)]]
    client := c2
    result :=
      if loginStatus ≠ 200 ∧ loginStatus ≠ 302 then
        .error (.authenticationError loginStatus)
      else
        .ok () }

/-- Source `disconnect()`: GETs the logout URL via `self._session` (an
`AttributeError` when the session is `None` — there is no connected
check); raises unless 200/302; only on success sets `self._session = None`. -/
def disconnect (c : Client) (logoutStatus : Nat) : TrResult Unit :=
  match c.session with
  | none => { trace := [], client := c, result := .error .attributeError }
  | some _ =>
      { trace := [.get logoutUrl]
        client :=
          if logoutStatus ≠ 200 ∧ logoutStatus ≠ 302 then c
          else { c with session := none }
        result :=
          if logoutStatus ≠ 200 ∧ logoutStatus ≠ 302 then
            .error (.authenticationError logoutStatus)
          else
            .ok () }

/-- Source `_get(url)`: not-connected check, GET, non-200 check, return response. -/
def trGet (c : Client) (url : String) (r : Response) : TrResult Response :=
  match c.session with
  | none => { trace := [], client := c, result := .error .notConnectedError }
  | some _ =>
      { trace := [.get url]
        client := c
        result :=
          if r.status ≠ 200 then .error (.requestError r.status) else .ok r }

/-- Source `_post(url, data)`: not-connected check, POST, non-200 check. -/
def trPost (c : Client) (url : String) (data : List (String × String))
    (postStatus : Nat) : TrResult Unit :=
  match c.session with
  | none => { trace := [], client := c, result := .error .notConnectedError }
  | some _ =>
      { trace := [.post url data]
        client := c
        result :=
          if postStatus ≠ 200 then .error (.requestError postStatus) else .ok () }

/-- The `for key in names: d[key] = parse(tree, key)` loops of
`_read_profile`, for either parse function. -/
def collectFields (parse : Page → String → Except TRError String) (tree : Page) :
    List String → List (String × String) → Except TRError (List (String × String))
  | [], acc => .ok acc
  | key :: rest, acc =>
      match parse tree key with
      | .error e => .error e
      | .ok v => collectFields parse tree rest (dictInsert acc key v)

/-- The pure part of `_read_profile`: token, input fields, select fields,
then `dict(**input_data, **select_data)`.  The input and select field
names are disjoint, so the Python keyword-merge is plain concatenation. -/
def readProfileFromPage (tree : Page) : Except TRError (List (String × String) × String) :=
  match parseValue tree rvt with
  | .error e => .error e
  | .ok token =>
      match collectFields parseValue tree inputDataNames [] with
      | .error e => .error e
      | .ok inputData =>
          match collectFields parseName tree selectDataNames [] with
          | .error e => .error e
          | .ok selectData => .ok (inputData ++ selectData, token)

/-- Source `_read_profile()`: `_get` the rider URL, then parse the page. -/
def readProfile (c : Client) (r : Response) : TrResult (List (String × String) × String) :=
  match trGet c riderUrl r with
  | { trace := t, client := c1, result := .error e } =>
      { trace := t, client := c1, result := .error e }
  | { trace := t, client := c1, result := .ok resp } =>
      { trace := t, client := c1, result := readProfileFromPage resp.page }

/-- The `for key, value in new_values.items()` loop of `_write_profile`:
raise on a key not in the form data, else `data[key] = str(value)`. -/
def mergeNewValues (data : List (String × String)) :
    List (String × PyValue) → Except TRError (List (String × String))
  | [] => .ok data
  | (key, value) :: rest =>
      match dget data key with
      | none => .error (.validationError key)
      | some _ => mergeNewValues (dictInsert data key (pyStr value)) rest

/-- Source `_write_profile(new_values)`: read the form and token, merge the new
values (validating every key), POST `dict(**data, **{rvt: token})` (the
field names never collide with the token name, so the merge is an
append), re-read, and raise unless the re-read map equals the merged
map.  `r1` is the response to the first profile GET, `postStatus` the
status of the POST, `r2` the response to the verification GET. -/
def writeProfile (c : Client) (newValues : List (String × PyValue))
    (r1 : Response) (postStatus : Nat) (r2 : Response) : TrResult Unit :=
  match readProfile c r1 with
  | { trace := t1, client := c1, result := .error e } =>
      { trace := t1, client := c1, result := .error e }
  | { trace := t1, client := c1, result := .ok (data0, token) } =>
      match mergeNewValues data0 newValues with
      | .error e => { trace := t1, client := c1, result := .error e }
      | .ok data =>
          match trPost c1 riderUrl (data ++ [(rvt, token)]) postStatus with
          | { trace := t2, client := c2, result := .error e } =>
              { trace := t1 ++ t2, client := c2, result := .error e }
          | { trace := t2, client := c2, result := .ok _ } =>
              match readProfile c2 r2 with
              | { trace := t3, client := c3, result := .error e } =>
                  { trace := t1 ++ t2 ++ t3, client := c3, result := .error e }
              | { trace := t3, client := c3, result := .ok (data2, _) } =>
                  { trace := t1 ++ t2 ++ t3, client := c3,
                    result :=
                      if data = data2 then .ok ()
                      else .error .verificationError }

/-- The `ftp` property getter: full profile read, then `values[self._ftp]`
(a `KeyError` if absent, though a successful read always has the key). -/
def ftpGet (c : Client) (r : Response) : TrResult String :=
  match readProfile c r with
  | { trace := t, client := c1, result := .error e } =>
      { trace := t, client := c1, result := .error e }
  | { trace := t, client := c1, result := .ok (values, _) } =>
      { trace := t, client := c1,
        result :=
          match dget values ftpField with
          | none => .error (.keyError ftpField)
          | some v => .ok v }

/-- The `ftp` property setter: `_write_profile({self._ftp: value})`. -/
def ftpSet (c : Client) (value : PyValue)
    (r1 : Response) (postStatus : Nat) (r2 : Response) : TrResult Unit :=
  writeProfile c [(ftpField, value)] r1 postStatus r2

/-- The `weight` property getter. -/
def weightGet (c : Client) (r : Response) : TrResult String :=
  match readProfile c r with
  | { trace := t, client := c1, result := .error e } =>
      { trace := t, client := c1, result := .error e }
  | { trace := t, client := c1, result := .ok (values, _) } =>
      { trace := t, client := c1,
        result :=
          match dget values weightField with
          | none => .error (.keyError weightField)
          | some v => .ok v }

/-- The `weight` property setter: `_write_profile({self._weight: value})`. -/
def weightSet (c : Client) (value : PyValue)
    (r1 : Response) (postStatus : Nat) (r2 : Response) : TrResult Unit :=
  writeProfile c [(weightField, value)] r1 postStatus r2

/-- The `with TrainerRoad(...) as t:` form: `__enter__` calls `connect`,
the body runs, and `__exit__` calls `disconnect` on every exit path of
the body (Python runs `__exit__` also when the body raises; `__exit__`
returns `None`, so a body exception propagates unless `disconnect`
itself raises, in which case that exception replaces it).  When
`connect` raises, the body and `__exit__` do not run. -/
def scopedSession {α : Type} (c : Client) (loginStatus : Nat)
    (body : Client → TrResult α) (logoutStatus : Nat) : TrResult α :=
  match connect c loginStatus with
  | { trace := t, client := c1, result := .error e } =>
      { trace := t, client := c1, result := .error e }
  | { trace := t, client := c1, result := .ok _ } =>
      match body c1 with
      | { trace := tb, client := c2, result := rb } =>
          match disconnect c2 logoutStatus with
          | { trace := td, client := c3, result := .error ed } =>
              { trace := t ++ tb ++ td, client := c3, result := .error ed }
          | { trace := td, client := c3, result := .ok _ } =>
              { trace := t ++ tb ++ td, client := c3, result := rb }

/-! ### Server model

For the end-to-end write/read claims we model the web service itself:
it stores a profile field map and a token, renders them into the form
page (`input` elements for the input fields, `select` elements for the
select fields, plus the hidden token input), and on a POST of the form
replaces its stored profile with the posted fields (minus the token). -/

/-- The eight profile field names (the three input fields followed by
the five distinct select fields). -/
def profileFieldNames : List String :=
  ["Ftp", "Weight", "Marketing",
   "TimeZoneId", "IsMale", "IsPrivate", "Units", "IsVirtualPowerEnabled"]

structure Server where
  profile : List (String × String)
  token : String
  deriving DecidableEq, Repr

/-- A complete server profile map, one entry per form field. -/
def mkProfile (f w m tz ml pv un vp : String) : List (String × String) :=
  [("Ftp", f), ("Weight", w), ("Marketing", m),
   ("TimeZoneId", tz), ("IsMale", ml), ("IsPrivate", pv),
   ("Units", un), ("IsVirtualPowerEnabled", vp)]

/-- The server renders its state into the profile form page. -/
def renderPage (sv : Server) : Page :=
  { inputs := (rvt, sv.token) :: sv.profile.filter (fun p => inputDataNames.contains p.1)
    selects := sv.profile.filter (fun p => selectDataNames.contains p.1) }

/-- A successful (status 200) response carrying the rendered page. -/
def serverResponse (sv : Server) : Response :=
  { status := 200, page := renderPage sv }

/-- The server accepts a POST of the form data: its profile becomes the
posted field map, the token entry stripped. -/
def serverPost (sv : Server) (data : List (String × String)) : Server :=
  { sv with profile := data.filter (fun p => p.1 ≠ rvt) }

/-! ### Helper lemmas -/

instance {ε α : Type} [DecidableEq ε] [DecidableEq α] : DecidableEq (Except ε α)
  | .ok a, .ok b =>
      if h : a = b then .isTrue (by rw [h]) else .isFalse (fun hh => h (Except.ok.inj hh))
  | .ok _, .error _ => .isFalse (fun hh => Except.noConfusion hh)
  | .error _, .ok _ => .isFalse (fun hh => Except.noConfusion hh)
  | .error a, .error b =>
      if h : a = b then .isTrue (by rw [h]) else .isFalse (fun hh => h (Except.error.inj hh))

theorem dget_dictInsert (d : List (String × String)) (k v k2 : String) :
    dget (dictInsert d k v) k2 = if k = k2 then some v else dget d k2 := by
  induction d with
  | nil =>
      by_cases h : k = k2 <;> simp [dictInsert, dget, h]
  | cons hd tl ih =>
      obtain ⟨kh, vh⟩ := hd
      by_cases h1 : kh = k
      · subst h1
        by_cases h2 : kh = k2 <;> simp [dictInsert, dget, h2]
      · by_cases h2 : kh = k2
        · subst h2
          simp [dictInsert, dget, h1, Ne.symm h1]
        · simp [dictInsert, dget, h1, h2, ih]

/-- If some key of `nv` is absent from `d`, the merge loop raises a
`ValidationError` for a key absent from `d`. -/
theorem mergeNewValues_missing (nv : List (String × PyValue)) :
    ∀ d : List (String × String), (∃ kv ∈ nv, dget d kv.1 = none) →
    ∃ k, mergeNewValues d nv = .error (.validationError k) ∧ dget d k = none := by
  induction nv with
  | nil => intro d h; simp at h
  | cons hd tl ih =>
      intro d h
      obtain ⟨khd, vhd⟩ := hd
      cases hdg : dget d khd with
      | none => exact ⟨khd, by simp [mergeNewValues, hdg], hdg⟩
      | some v0 =>
          obtain ⟨kv, hmem, hnone⟩ := h
          have hkvtl : kv ∈ tl := by
            rcases List.mem_cons.mp hmem with heq | htl
            · subst heq; simp [hdg] at hnone
            · exact htl
          have hkvne : kv.1 ≠ khd := by
            intro heq; rw [heq] at hnone; simp [hdg] at hnone
          obtain ⟨k, hmerge, hnone2⟩ := ih (dictInsert d khd (pyStr vhd))
            ⟨kv, hkvtl, by rw [dget_dictInsert]; simp [Ne.symm hkvne, hnone]⟩
          have hkne : k ≠ khd := by
            intro heq
            rw [heq, dget_dictInsert] at hnone2
            simp at hnone2
          refine ⟨k, ?_, ?_⟩
          · simp [mergeNewValues, hdg, hmerge]
          · rw [dget_dictInsert] at hnone2
            simpa [Ne.symm hkne] using hnone2

/-- Every error of the field-collection loop is a `ParseError`, provided
the parse function only raises `ParseError`s. -/
theorem collectFields_cases (parse : Page → String → Except TRError String) (p : Page)
    (hp : ∀ n e, parse p n = .error e → ∃ m, e = .parseError m) :
    ∀ (names : List String) (acc : List (String × String)),
    (∃ d, collectFields parse p names acc = .ok d) ∨
    (∃ m, collectFields parse p names acc = .error (.parseError m)) := by
  intro names
  induction names with
  | nil => intro acc; exact .inl ⟨acc, rfl⟩
  | cons n rest ih =>
      intro acc
      cases hpn : parse p n with
      | error e =>
          obtain ⟨m, hm⟩ := hp n e hpn
          exact .inr ⟨m, by simp [collectFields, hpn, hm]⟩
      | ok v =>
          rcases ih (dictInsert acc n v) with ⟨d, hd⟩ | ⟨m, hm⟩
          · exact .inl ⟨d, by simp [collectFields, hpn, hd]⟩
          · exact .inr ⟨m, by simp [collectFields, hpn, hm]⟩

/-- If some listed field fails to parse, the collection loop raises a
`ParseError`. -/
theorem collectFields_missing (parse : Page → String → Except TRError String) (p : Page)
    (hp : ∀ n e, parse p n = .error e → ∃ m, e = .parseError m) :
    ∀ (names : List String) (acc : List (String × String)),
    (∃ n ∈ names, ∃ e, parse p n = .error e) →
    ∃ m, collectFields parse p names acc = .error (.parseError m) := by
  intro names
  induction names with
  | nil => intro acc h; simp at h
  | cons n rest ih =>
      intro acc h
      cases hpn : parse p n with
      | error e =>
          obtain ⟨m, hm⟩ := hp n e hpn
          exact ⟨m, by simp [collectFields, hpn, hm]⟩
      | ok v =>
          obtain ⟨n2, hmem, e, he⟩ := h
          have hn2 : n2 ∈ rest := by
            rcases List.mem_cons.mp hmem with heq | htl
            · subst heq; rw [hpn] at he; cases he
            · exact htl
          obtain ⟨m, hm⟩ := ih (dictInsert acc n v) ⟨n2, hn2, e, he⟩
          exact ⟨m, by simp [collectFields, hpn, hm]⟩

/-- Lemma: `_parse_value` only raises a `ParseError`. -/
theorem parseValue_error_shape (p : Page) (n : String) (e : TRError)
    (h : parseValue p n = .error e) : ∃ m, e = .parseError m := by
  unfold parseValue at h
  cases hd : dget p.inputs n with
  | none => rw [hd] at h; exact ⟨n, (Except.error.inj h).symm⟩
  | some v => rw [hd] at h; exact Except.noConfusion h

/-- Lemma: `_parse_name` only raises a `ParseError`. -/
theorem parseName_error_shape (p : Page) (n : String) (e : TRError)
    (h : parseName p n = .error e) : ∃ m, e = .parseError m := by
  unfold parseName at h
  cases hd : dget p.selects n with
  | none => rw [hd] at h; exact ⟨n, (Except.error.inj h).symm⟩
  | some v => rw [hd] at h; exact Except.noConfusion h

/-- Reading back the page the server renders from a complete profile map
reproduces exactly that map and token. -/
theorem render_roundtrip (f w m tz ml pv un vp tok : String) :
    readProfileFromPage
        (renderPage
          ⟨[("Ftp", f), ("Weight", w), ("Marketing", m),
            ("TimeZoneId", tz), ("IsMale", ml), ("IsPrivate", pv),
            ("Units", un), ("IsVirtualPowerEnabled", vp)], tok⟩)
      = .ok ([("Ftp", f), ("Weight", w), ("Marketing", m),
              ("TimeZoneId", tz), ("IsMale", ml), ("IsPrivate", pv),
              ("Units", un), ("IsVirtualPowerEnabled", vp)], tok) := rfl

/-! ### Claim theorems -/

/-- C4: `connect` succeeds exactly on HTTP 200 or 302; any other status
raises `AuthenticationError` with that status; and the client state
after `connect` is the same deterministic state — a fresh session —
whether the call succeeds or fails (the session is assigned before the
status check), so a failure never leaves the state ambiguous. -/
theorem connect_status_spec (c : Client) (s : Nat) :
    ((connect c s).result = .ok () ↔ (s = 200 ∨ s = 302))
    ∧ (¬ (s = 200 ∨ s = 302) → (connect c s).result = .error (.authenticationError s))
    ∧ (connect c s).client = { c with session := some () }
    ∧ (connect c s).trace
        = [.post loginUrl [("Username", c.username), ("Password", c.password)]] := by
  by_cases h : s = 200 ∨ s = 302
  · rcases h with h | h <;> subst h <;> simp [connect]
  · push_neg at h
    simp [connect, h.1, h.2]

theorem connect_status_spec_witness :
    (connect (init "alice" "pw") 500).result = .error (.authenticationError 500) :=
  (connect_status_spec (init "alice" "pw") 500).2.1 (by decide)

/-- C10: `disconnect` on a client with no active session does not raise
`NotConnectedError`: there is no connected-state check, so the failure
is the untyped error from dereferencing the absent session
(`AttributeError` on `None`), raised before any request is issued. -/
theorem disconnect_unconnected_spec (c : Client) (s : Nat) (hc : c.session = none) :
    (disconnect c s).result = .error .attributeError
    ∧ (disconnect c s).result ≠ .error .notConnectedError
    ∧ (disconnect c s).trace = [] := by
  obtain ⟨u, pw, sess⟩ := c
  simp only [Client.session] at hc
  subst hc
  simp [disconnect]

theorem disconnect_unconnected_spec_witness :
    (disconnect (init "alice" "pw") 200).result = .error .attributeError :=
  (disconnect_unconnected_spec (init "alice" "pw") 200 rfl).1

/-- C5 counterexample: a logout attempt answered with HTTP 500 raises
`AuthenticationError`, but the session is NOT cleared — it stays set,
and a subsequent profile read on the resulting client does not raise
`NotConnectedError` (it proceeds to issue the GET).  So the failed
disconnect does not leave the session unusable, contrary to the claim. -/
theorem disconnect_failure_keeps_session :
    ((disconnect { username := "alice", password := "pw", session := some () } 500).result
      = .error (.authenticationError 500))
    ∧ (disconnect { username := "alice", password := "pw", session := some () } 500).client.session
        = some ()
    ∧ ((readProfile
          (disconnect { username := "alice", password := "pw", session := some () } 500).client
          { status := 200, page := { inputs := [], selects := [] } }).result
        ≠ .error .notConnectedError)
    ∧ (readProfile
          (disconnect { username := "alice", password := "pw", session := some () } 500).client
          { status := 200, page := { inputs := [], selects := [] } }).trace
        = [.get riderUrl] := by
  decide

/-- C5 amended: a logout status outside 200/302 raises
`AuthenticationError`, but the session state is left unchanged (still
set, not cleared); only a successful disconnect clears the session. -/
theorem disconnect_status_spec (c : Client) (s : Nat) (hc : c.session = some ()) :
    (¬ (s = 200 ∨ s = 302) →
      (disconnect c s).result = .error (.authenticationError s) ∧ (disconnect c s).client = c)
    ∧ ((s = 200 ∨ s = 302) →
      (disconnect c s).result = .ok () ∧ (disconnect c s).client = { c with session := none })
    ∧ (disconnect c s).trace = [.get logoutUrl] := by
  obtain ⟨u, pw, sess⟩ := c
  simp only [Client.session] at hc
  subst hc
  by_cases h : s = 200 ∨ s = 302
  · rcases h with h | h <;> subst h <;> simp [disconnect]
  · push_neg at h
    simp [disconnect, h.1, h.2]

theorem disconnect_status_spec_witness :
    (disconnect { username := "alice", password := "pw", session := some () } 404).result
      = .error (.authenticationError 404) :=
  ((disconnect_status_spec { username := "alice", password := "pw", session := some () }
      404 rfl).1 (by decide)).1

/-- C2: a successful profile read — connected client, HTTP 200, every
expected field present — returns the token and a field map holding, in
order, the `value` of each input field (`Ftp`, `Weight`, `Marketing`)
and the selected option of each select field (`TimeZoneId`, `IsMale`,
`IsPrivate`, `Units`, `IsVirtualPowerEnabled`); each name, `TimeZoneId`
included, is a key exactly once even though the source enumerates
`TimeZoneId` twice. -/
theorem read_profile_fields_spec (c : Client) (r : Response)
    (tok fv wv mv tzv mlv pvv uv vpv : String)
    (hc : c.session = some ()) (hs : r.status = 200)
    (htok : dget r.page.inputs rvt = some tok)
    (hf : dget r.page.inputs "Ftp" = some fv)
    (hw : dget r.page.inputs "Weight" = some wv)
    (hm : dget r.page.inputs "Marketing" = some mv)
    (htz : dget r.page.selects "TimeZoneId" = some tzv)
    (hml : dget r.page.selects "IsMale" = some mlv)
    (hpv : dget r.page.selects "IsPrivate" = some pvv)
    (hu : dget r.page.selects "Units" = some uv)
    (hvp : dget r.page.selects "IsVirtualPowerEnabled" = some vpv) :
    readProfile c r =
      { trace := [.get riderUrl], client := c,
        result := .ok ([("Ftp", fv), ("Weight", wv), ("Marketing", mv),
                        ("TimeZoneId", tzv), ("IsMale", mlv), ("IsPrivate", pvv),
                        ("Units", uv), ("IsVirtualPowerEnabled", vpv)], tok) } := by
  obtain ⟨u, pw, sess⟩ := c
  simp only [Client.session] at hc
  subst hc
  simp [readProfile, trGet, hs, readProfileFromPage, collectFields, parseValue, parseName,
        inputDataNames, selectDataNames, ftpField, weightField, dictInsert,
        htok, hf, hw, hm, htz, hml, hpv, hu, hvp]

theorem read_profile_fields_spec_witness :
    readProfile { username := "a", password := "b", session := some () }
      { status := 200,
        page :=
          { inputs := [(rvt, "T"), ("Ftp", "250"), ("Weight", "75"), ("Marketing", "false")],
            selects := [("TimeZoneId", "UTC"), ("IsMale", "true"), ("IsPrivate", "false"),
                        ("Units", "Metric"), ("IsVirtualPowerEnabled", "false")] } } =
      { trace := [.get riderUrl],
        client := { username := "a", password := "b", session := some () },
        result := .ok ([("Ftp", "250"), ("Weight", "75"), ("Marketing", "false"),
                        ("TimeZoneId", "UTC"), ("IsMale", "true"), ("IsPrivate", "false"),
                        ("Units", "Metric"), ("IsVirtualPowerEnabled", "false")], "T") } :=
  read_profile_fields_spec _ _ "T" "250" "75" "false" "UTC" "true" "false" "Metric" "false"
    rfl rfl (by decide) (by decide) (by decide) (by decide) (by decide) (by decide)
    (by decide) (by decide) (by decide)

/-- C6: after a successful `connect` followed by a successful
`disconnect`, every profile operation — `read_profile`, `write_profile`
and the four ftp/weight accessors — fails with `NotConnectedError`
until the client reconnects. -/
theorem connect_disconnect_not_connected (c : Client) (ls lo : Nat)
    (hls : ls = 200 ∨ ls = 302) (hlo : lo = 200 ∨ lo = 302)
    (r r1 r2 : Response) (ps : Nat) (nv : List (String × PyValue)) (v : PyValue) :
    (connect c ls).result = .ok ()
    ∧ (disconnect (connect c ls).client lo).result = .ok ()
    ∧ (readProfile (disconnect (connect c ls).client lo).client r).result
        = .error .notConnectedError
    ∧ (writeProfile (disconnect (connect c ls).client lo).client nv r1 ps r2).result
        = .error .notConnectedError
    ∧ (ftpGet (disconnect (connect c ls).client lo).client r).result
        = .error .notConnectedError
    ∧ (weightGet (disconnect (connect c ls).client lo).client r).result
        = .error .notConnectedError
    ∧ (ftpSet (disconnect (connect c ls).client lo).client v r1 ps r2).result
        = .error .notConnectedError
    ∧ (weightSet (disconnect (connect c ls).client lo).client v r1 ps r2).result
        = .error .notConnectedError := by
  rcases hls with hls | hls <;> subst hls <;>
    rcases hlo with hlo | hlo <;> subst hlo <;>
      simp [connect, disconnect, readProfile, writeProfile, ftpGet, weightGet,
            ftpSet, weightSet, trGet]

theorem connect_disconnect_not_connected_witness :
    (readProfile
        (disconnect (connect (init "alice" "pw") 200).client 302).client
        { status := 200, page := { inputs := [], selects := [] } }).result
      = .error .notConnectedError :=
  (connect_disconnect_not_connected (init "alice" "pw") 200 302 (by decide) (by decide)
      { status := 200, page := { inputs := [], selects := [] } }
      { status := 200, page := { inputs := [], selects := [] } }
      { status := 200, page := { inputs := [], selects := [] } }
      200 [] (.s "x")).2.2.1

/-- C7: `read_profile` fails with `NotConnectedError` without an active
session (before issuing any request), with `RequestError` when the
profile GET returns a status other than 200, with `ParseError rvt` when
the anti-forgery token input is absent, and with a `ParseError` when any
expected input or select field is absent; in every case the operation
performed at most the single GET — no retry. -/
theorem read_profile_error_spec (c : Client) (r : Response) :
    (c.session = none →
      readProfile c r = { trace := [], client := c, result := .error .notConnectedError })
    ∧ (c.session = some () → r.status ≠ 200 →
      readProfile c r
        = { trace := [.get riderUrl], client := c, result := .error (.requestError r.status) })
    ∧ (c.session = some () → r.status = 200 → dget r.page.inputs rvt = none →
      readProfile c r
        = { trace := [.get riderUrl], client := c, result := .error (.parseError rvt) })
    ∧ (c.session = some () → r.status = 200 →
      ((∃ n ∈ inputDataNames, dget r.page.inputs n = none) ∨
       (∃ n ∈ selectDataNames, dget r.page.selects n = none)) →
      ∃ m, readProfile c r
        = { trace := [.get riderUrl], client := c, result := .error (.parseError m) }) := by
  obtain ⟨u, pw, sess⟩ := c
  refine ⟨?_, ?_, ?_, ?_⟩
  · intro hc
    simp only [Client.session] at hc
    subst hc
    simp [readProfile, trGet]
  · intro hc hs
    simp only [Client.session] at hc
    subst hc
    simp [readProfile, trGet, hs]
  · intro hc hs htok
    simp only [Client.session] at hc
    subst hc
    simp [readProfile, trGet, hs, readProfileFromPage, parseValue, htok]
  · intro hc hs hmiss
    simp only [Client.session] at hc
    subst hc
    have hwrap : ∀ m, readProfileFromPage r.page = .error (.parseError m) →
        readProfile { username := u, password := pw, session := some () } r
          = { trace := [.get riderUrl],
              client := { username := u, password := pw, session := some () },
              result := .error (.parseError m) } := by
      intro m hm
      simp [readProfile, trGet, hs, hm]
    cases htokc : dget r.page.inputs rvt with
    | none => exact ⟨rvt, hwrap rvt (by simp [readProfileFromPage, parseValue, htokc])⟩
    | some t =>
        rcases hmiss with ⟨n, hn, hnone⟩ | ⟨n, hn, hnone⟩
        · obtain ⟨m, hm⟩ := collectFields_missing parseValue r.page
            (parseValue_error_shape r.page) inputDataNames []
            ⟨n, hn, .parseError n, by simp [parseValue, hnone]⟩
          exact ⟨m, hwrap m (by simp [readProfileFromPage, parseValue, htokc, hm])⟩
        · rcases collectFields_cases parseValue r.page
            (parseValue_error_shape r.page) inputDataNames [] with ⟨d, hd⟩ | ⟨m, hm⟩
          · obtain ⟨m, hm⟩ := collectFields_missing parseName r.page
              (parseName_error_shape r.page) selectDataNames []
              ⟨n, hn, .parseError n, by simp [parseName, hnone]⟩
            exact ⟨m, hwrap m (by simp [readProfileFromPage, parseValue, htokc, hd, hm])⟩
          · exact ⟨m, hwrap m (by simp [readProfileFromPage, parseValue, htokc, hm])⟩

theorem read_profile_error_spec_witness :
    readProfile (init "alice" "pw")
        { status := 200, page := { inputs := [], selects := [] } }
      = { trace := [], client := init "alice" "pw", result := .error .notConnectedError } :=
  (read_profile_error_spec (init "alice" "pw")
      { status := 200, page := { inputs := [], selects := [] } }).1 rfl

/-- C3: when some key of `new_values` is not a key of the profile form,
`write_profile` fails with a `ValidationError` for an unrecognized key,
having issued only the initial profile GET: no POST is ever sent, since
the whole validation loop runs before `_post`. -/
theorem write_profile_validation_spec (c : Client) (nv : List (String × PyValue))
    (r1 : Response) (ps : Nat) (r2 : Response)
    (data0 : List (String × String)) (tok : String)
    (hc : c.session = some ()) (hs : r1.status = 200)
    (hparse : readProfileFromPage r1.page = .ok (data0, tok))
    (hbad : ∃ kv ∈ nv, dget data0 kv.1 = none) :
    (∃ k, (writeProfile c nv r1 ps r2).result = .error (.validationError k)
        ∧ dget data0 k = none)
    ∧ (writeProfile c nv r1 ps r2).trace = [.get riderUrl]
    ∧ ∀ req ∈ (writeProfile c nv r1 ps r2).trace, ∀ url d, req ≠ .post url d := by
  obtain ⟨u, pw, sess⟩ := c
  simp only [Client.session] at hc
  subst hc
  obtain ⟨k, hmerge, hnone⟩ := mergeNewValues_missing nv data0 hbad
  have hread : readProfile { username := u, password := pw, session := some () } r1
      = { trace := [.get riderUrl],
          client := { username := u, password := pw, session := some () },
          result := .ok (data0, tok) } := by
    simp [readProfile, trGet, hs, hparse]
  refine ⟨⟨k, ?_, hnone⟩, ?_, ?_⟩
  · simp [writeProfile, hread, hmerge]
  · simp [writeProfile, hread, hmerge]
  · simp [writeProfile, hread, hmerge]

theorem write_profile_validation_spec_witness :
    (∃ k, (writeProfile { username := "a", password := "b", session := some () }
        [(("NoSuchField" : String), PyValue.s "1")]
        { status := 200,
          page :=
            { inputs := [(rvt, "T"), ("Ftp", "250"), ("Weight", "75"), ("Marketing", "f")],
              selects := [("TimeZoneId", "UTC"), ("IsMale", "t"), ("IsPrivate", "f"),
                          ("Units", "M"), ("IsVirtualPowerEnabled", "f")] } }
        200
        { status := 200, page := { inputs := [], selects := [] } }).result
      = .error (.validationError k)
      ∧ dget (mkProfile "250" "75" "f" "UTC" "t" "f" "M" "f") k = none) :=
  (write_profile_validation_spec { username := "a", password := "b", session := some () }
      [(("NoSuchField" : String), PyValue.s "1")]
      { status := 200,
        page :=
          { inputs := [(rvt, "T"), ("Ftp", "250"), ("Weight", "75"), ("Marketing", "f")],
            selects := [("TimeZoneId", "UTC"), ("IsMale", "t"), ("IsPrivate", "f"),
                        ("Units", "M"), ("IsVirtualPowerEnabled", "f")] } }
      200
      { status := 200, page := { inputs := [], selects := [] } }
      (mkProfile "250" "75" "f" "UTC" "t" "f" "M" "f") "T"
      rfl rfl (by decide) ⟨("NoSuchField", PyValue.s "1"), by decide, by decide⟩).1

/-- C9: the `ftp` and `weight` getters perform a full profile read (same
single GET) and return the value of the single named field; the setters
delegate to `write_profile` with a single-key update; and the `ftp`
getter on a fresh, never-connected client fails with
`NotConnectedError`. -/
theorem accessor_spec (c : Client) (r : Response) (v : PyValue)
    (r1 : Response) (ps : Nat) (r2 : Response) (u pw : String)
    (vals : List (String × String)) (tok fv wv : String)
    (hread : readProfile c r = { trace := [.get riderUrl], client := c, result := .ok (vals, tok) })
    (hfv : dget vals ftpField = some fv)
    (hwv : dget vals weightField = some wv) :
    ftpGet c r = { trace := [.get riderUrl], client := c, result := .ok fv }
    ∧ weightGet c r = { trace := [.get riderUrl], client := c, result := .ok wv }
    ∧ ftpSet c v r1 ps r2 = writeProfile c [(ftpField, v)] r1 ps r2
    ∧ weightSet c v r1 ps r2 = writeProfile c [(weightField, v)] r1 ps r2
    ∧ (ftpGet (init u pw) r).result = .error .notConnectedError := by
  refine ⟨?_, ?_, rfl, rfl, ?_⟩
  · simp [ftpGet, hread, hfv]
  · simp [weightGet, hread, hwv]
  · simp [ftpGet, readProfile, trGet, init]

theorem accessor_spec_witness :
    ftpGet { username := "a", password := "b", session := some () }
        { status := 200,
          page :=
            { inputs := [(rvt, "T"), ("Ftp", "250"), ("Weight", "75"), ("Marketing", "f")],
              selects := [("TimeZoneId", "UTC"), ("IsMale", "t"), ("IsPrivate", "f"),
                          ("Units", "M"), ("IsVirtualPowerEnabled", "f")] } }
      = { trace := [.get riderUrl],
          client := { username := "a", password := "b", session := some () },
          result := .ok "250" } :=
  (accessor_spec { username := "a", password := "b", session := some () }
      { status := 200,
        page :=
          { inputs := [(rvt, "T"), ("Ftp", "250"), ("Weight", "75"), ("Marketing", "f")],
            selects := [("TimeZoneId", "UTC"), ("IsMale", "t"), ("IsPrivate", "f"),
                        ("Units", "M"), ("IsVirtualPowerEnabled", "f")] } }
      (.s "260")
      { status := 200, page := { inputs := [], selects := [] } } 200
      { status := 200, page := { inputs := [], selects := [] } }
      "x" "y"
      (mkProfile "250" "75" "f" "UTC" "t" "f" "M" "f") "T" "250" "75"
      rfl (by decide) (by decide)).1

/-- C8: in the scoped-session (`with`-statement) form, `connect` runs on
entry and `disconnect` runs on exit on every exit path of the body —
the trace is always the connect trace, then the body trace, then the
disconnect trace, with no constraint on the body's outcome (a failing
body included) — so whenever the post-body client still holds a session
the logout request is issued. -/
theorem scoped_session_spec {α : Type} (c : Client) (ls lo : Nat)
    (body : Client → TrResult α)
    (hls : ls = 200 ∨ ls = 302)
    (hb : (body { c with session := some () }).client.session = some ()) :
    HttpReq.get logoutUrl ∈ (scopedSession c ls body lo).trace
    ∧ (scopedSession c ls body lo).trace
        = (connect c ls).trace ++ (body { c with session := some () }).trace
          ++ (disconnect (body { c with session := some () }).client lo).trace := by
  have hconn : connect c ls =
      { trace := [.post loginUrl [("Username", c.username), ("Password", c.password)]],
        client := { c with session := some () }, result := .ok () } := by
    rcases hls with rfl | rfl <;> simp [connect]
  rcases hB : body { c with session := some () } with ⟨tb, c2, rb⟩
  rw [hB] at hb
  obtain ⟨u2, pw2, s2⟩ := c2
  simp only [Client.session] at hb
  subst hb
  by_cases hlo : lo ≠ 200 ∧ lo ≠ 302
  · constructor <;>
      simp [scopedSession, hconn, hB, disconnect, hlo.1, hlo.2]
  · rw [not_and_or, not_not, not_not] at hlo
    rcases hlo with rfl | rfl <;>
      constructor <;>
        simp [scopedSession, hconn, hB, disconnect]

theorem scoped_session_spec_witness :
    HttpReq.get logoutUrl ∈
      (scopedSession (init "alice" "pw") 200
        (fun cl => ({ trace := [], client := cl,
                      result := .error .verificationError } : TrResult Unit))
        200).trace :=
  (scoped_session_spec (init "alice" "pw") 200 200
      (fun cl => ({ trace := [], client := cl,
                    result := .error .verificationError } : TrResult Unit))
      (.inl rfl) rfl).1

/-- C1: on a connected session, against a server holding the complete
profile map `M = mkProfile …` and token `tok`, `write_profile` with a
recognized key `k` first GETs and parses the form, overwrites field `k`
with `pyStr v`, POSTs the merged map plus the token, re-reads, and the
result is `VerificationError` exactly when the re-read map differs from
the merged map (part one, with an arbitrary parseable second page);
against the server semantics the write succeeds, and a subsequent
`read_profile` yields exactly `M` with field `k` set to `pyStr v`
(parts two and three). -/
theorem write_profile_spec (c : Client) (hc : c.session = some ())
    (f w m tz ml pv un vp tok : String) (k : String) (v : PyValue)
    (hk : k ∈ profileFieldNames)
    (p2 : Page) (d2 : List (String × String)) (t2 : String)
    (h2 : readProfileFromPage p2 = .ok (d2, t2)) :
    (writeProfile c [(k, v)] (serverResponse ⟨mkProfile f w m tz ml pv un vp, tok⟩) 200
        { status := 200, page := p2 }
      = { trace := [.get riderUrl,
                    .post riderUrl
                      (dictInsert (mkProfile f w m tz ml pv un vp) k (pyStr v) ++ [(rvt, tok)]),
                    .get riderUrl],
          client := c,
          result :=
            if dictInsert (mkProfile f w m tz ml pv un vp) k (pyStr v) = d2 then .ok ()
            else .error .verificationError })
    ∧ (writeProfile c [(k, v)] (serverResponse ⟨mkProfile f w m tz ml pv un vp, tok⟩) 200
        (serverResponse
          (serverPost ⟨mkProfile f w m tz ml pv un vp, tok⟩
            (dictInsert (mkProfile f w m tz ml pv un vp) k (pyStr v) ++ [(rvt, tok)])))).result
      = .ok ()
    ∧ (readProfile c
        (serverResponse
          (serverPost ⟨mkProfile f w m tz ml pv un vp, tok⟩
            (dictInsert (mkProfile f w m tz ml pv un vp) k (pyStr v) ++ [(rvt, tok)])))).result
      = .ok (dictInsert (mkProfile f w m tz ml pv un vp) k (pyStr v), tok) := by
  obtain ⟨u, pw, sess⟩ := c
  simp only [Client.session] at hc
  subst hc
  simp only [profileFieldNames, List.mem_cons, List.not_mem_nil, or_false] at hk
  rcases hk with rfl | rfl | rfl | rfl | rfl | rfl | rfl | rfl <;>
    refine ⟨?_, ?_, ?_⟩ <;>
      simp [writeProfile, readProfile, trGet, trPost, serverResponse, serverPost,
            mergeNewValues, dictInsert, dget, mkProfile, inputDataNames, selectDataNames,
            ftpField, weightField, rvt, List.filter, h2, render_roundtrip]

theorem write_profile_spec_witness :
    (writeProfile { username := "a", password := "b", session := some () }
        [(("Ftp" : String), PyValue.s "260")]
        (serverResponse ⟨mkProfile "250" "75" "f" "UTC" "t" "f" "M" "f", "T"⟩) 200
        (serverResponse
          (serverPost ⟨mkProfile "250" "75" "f" "UTC" "t" "f" "M" "f", "T"⟩
            (dictInsert (mkProfile "250" "75" "f" "UTC" "t" "f" "M" "f") "Ftp"
                (pyStr (PyValue.s "260")) ++ [(rvt, "T")])))).result
      = .ok ()
    ∧ (readProfile { username := "a", password := "b", session := some () }
        (serverResponse
          (serverPost ⟨mkProfile "250" "75" "f" "UTC" "t" "f" "M" "f", "T"⟩
            (dictInsert (mkProfile "250" "75" "f" "UTC" "t" "f" "M" "f") "Ftp"
                (pyStr (PyValue.s "260")) ++ [(rvt, "T")])))).result
      = .ok (dictInsert (mkProfile "250" "75" "f" "UTC" "t" "f" "M" "f") "Ftp"
                (pyStr (PyValue.s "260")), "T") :=
  ⟨(write_profile_spec { username := "a", password := "b", session := some () } rfl
      "250" "75" "f" "UTC" "t" "f" "M" "f" "T" "Ftp" (PyValue.s "260") (by decide)
      (renderPage ⟨mkProfile "250" "75" "f" "UTC" "t" "f" "M" "f", "T"⟩)
      (mkProfile "250" "75" "f" "UTC" "t" "f" "M" "f") "T" rfl).2.1,
   (write_profile_spec { username := "a", password := "b", session := some () } rfl
      "250" "75" "f" "UTC" "t" "f" "M" "f" "T" "Ftp" (PyValue.s "260") (by decide)
      (renderPage ⟨mkProfile "250" "75" "f" "UTC" "t" "f" "M" "f", "T"⟩)
      (mkProfile "250" "75" "f" "UTC" "t" "f" "M" "f") "T" rfl).2.2⟩

end TrainerRoad
